import Mathlib

/-!
Verification development for the multi-provider Bitcoin RPC router in
`src/rpclient/blockstream-esplora.ts`: the `BlockstreamEsploraClient`
batch normalizer (`multiCall`), the `Provider` constructor and its
fallback policy, the routed `Provider.multiCall`, and the broadcast
orchestrator `Provider.pushPsbt`.

Network I/O and the external PSBT library are modelled as explicit
environments (records of functions returning `Except String _`): a
`.error` value models a rejected promise / thrown `Error`, carrying the
message string, and propagating or catching an `Except.error` models
JavaScript exception propagation.  Routing and broadcast additionally
return a trace (list of attempted backends / pipeline events) so that
temporal claims ("attempted at most once", "before any backend is
contacted") are statable.
-/

/-- The `networkType` values accepted by `ProviderConstructorArgs`. -/
inductive NetworkType
  | mainnet
  | testnet
  | signet
  | regtest
deriving DecidableEq

/-- Opaque JSON-like values carried by RPC calls and results (`any` in the
source). -/
inductive RpcValue
  | null
  | bool (b : Bool)
  | num (n : Int)
  | str (s : String)
  | arr (xs : List RpcValue)
  | obj (fields : List (String × RpcValue))

/-- One element of the array returned by `multiCall`: `{ result: any }`. -/
structure Envelope where
  result : RpcValue

/-- The state of a `BlockstreamEsploraClient`: its `baseUrl` field. -/
structure BlockstreamEsploraClient where
  baseUrl : String

/-- The `BlockstreamEsploraClient` constructor (lines 56-66): picks a base
URL for mainnet/testnet/signet and throws for any other network type. -/
def BlockstreamEsploraClient.create : NetworkType → Except String BlockstreamEsploraClient
  | NetworkType.mainnet => Except.ok ⟨"https://blockstream.info/api"⟩
  | NetworkType.testnet => Except.ok ⟨"https://blockstream.info/testnet/api"⟩
  | NetworkType.signet => Except.ok ⟨"https://mempool.space/signet/api"⟩
  | NetworkType.regtest => Except.error "Unsupported network type: regtest"

/-- Environment modelling the HTTP fetches of `BlockstreamEsploraClient`
(`getAddressUtxos`, `getTxInfo`, `getBlockHeight`, `pushTx`): each either
yields a decoded value or fails (non-ok response / transport error).  The
adapter receives the raw parameter list, modelling the JS destructuring
plus URL interpolation plus fetch as one fallible step. -/
structure EsploraNet where
  getAddressUtxos : List RpcValue → Except String RpcValue
  getTxInfo : List RpcValue → Except String RpcValue
  getBlockHeight : Except String RpcValue
  pushTx : String → Except String String

/-- The `ord_output` branch of `multiCall` (lines 135-144): destructures
`params[0]` and calls `.split(':')` on it — which throws a `TypeError`
unless it is a string — then returns a fixed placeholder object. -/
def ordOutputStub (params : List RpcValue) : Except String RpcValue :=
  match params.head? with
  | some (RpcValue.str _) =>
      Except.ok (RpcValue.obj
        [("indexed", RpcValue.bool true),
         ("inscriptions", RpcValue.arr []),
         ("runes", RpcValue.obj [])])
  | _ => Except.error "TypeError: cannot split txidVout"

/-- The body of the `try` block for one call of
`BlockstreamEsploraClient.multiCall` (lines 122-159): the `switch` on the
method name.  The `default` branch warns and yields `null` without
failing. -/
def tryCall (net : EsploraNet) (method : String) (params : List RpcValue) :
    Except String RpcValue :=
  if method = "esplora_address::utxo" then net.getAddressUtxos params
  else if method = "btc_getblockcount" then net.getBlockHeight
  else if method = "ord_output" then ordOutputStub params
  else if method = "esplora_tx" then net.getTxInfo params
  else if method = "alkanes_protorunesbyoutpoint" then Except.ok (RpcValue.arr [])
  else Except.ok RpcValue.null

/-- The envelope pushed for one call: `{ result }` on success, and the
`catch` branch (lines 162-166) pushes `{ result: null }` on failure. -/
def envelopeOf (net : EsploraNet) (call : String × List RpcValue) : Envelope :=
  match tryCall net call.1 call.2 with
  | Except.ok r => ⟨r⟩
  | Except.error _ => ⟨RpcValue.null⟩

/-- `BlockstreamEsploraClient.multiCall` (lines 118-170): the `for` loop
over the calls, pushing one envelope per call.  The function is total: a
per-call failure is caught and becomes a `null` envelope, it never
propagates. -/
def BlockstreamEsploraClient.multiCall (net : EsploraNet)
    (calls : List (String × List RpcValue)) : List Envelope :=
  calls.map (envelopeOf net)

/-- The fields of `Provider` that the routing and broadcast logic reads.
`sandshrewPresent` models `this.sandshrew`, which the constructor always
assigns (used truthily at line 308). -/
structure Provider where
  url : String
  networkType : NetworkType
  useBlockstreamFallback : Bool
  blockstreamEsplora : Option BlockstreamEsploraClient
  sandshrewPresent : Bool

/-- The `Provider` constructor (lines 203-243): builds the master URL,
derives `useBlockstreamFallback` (line 233, forced on for signet), and
initialises `blockstreamEsplora` inside a `try`/`catch` that leaves the
handle absent when `BlockstreamEsploraClient.create` throws. -/
def Provider.make (url projectId version : String) (networkType : NetworkType)
    (fallbackToBlockstream : Bool) : Provider :=
  let masterUrl := String.intercalate "/" ([url, version, projectId].filter (fun s => s != ""))
  let useFallback := fallbackToBlockstream || (networkType == NetworkType.signet)
  let secondary : Option BlockstreamEsploraClient :=
    if useFallback || (networkType == NetworkType.signet
        || networkType == NetworkType.testnet || networkType == NetworkType.mainnet) then
      match BlockstreamEsploraClient.create networkType with
      | Except.ok c => some c
      | Except.error _ => none
    else
      none
  { url := masterUrl, networkType := networkType, useBlockstreamFallback := useFallback,
    blockstreamEsplora := secondary, sandshrewPresent := true }

/-- The two backends that `Provider.multiCall` can attempt. -/
inductive Backend
  | secondary
  | primary
deriving DecidableEq

/-- Outcomes of the two possible batch attempts within one
`Provider.multiCall` invocation: what `this.blockstreamEsplora.multiCall(calls)`
and `this.sandshrew.multiCall(calls)` would respectively return or throw. -/
structure RouteEnv where
  secondaryResult : Except String (List Envelope)
  primaryResult : Except String (List Envelope)

/-- `Provider.multiCall` (lines 246-270), with a trace of attempted
backends.  Structure mirrors the source: optional secondary-first attempt
with suppressed failure, then the Sandshrew attempt, whose `catch` falls
back to the secondary only when `blockstreamEsplora` exists and
`useBlockstreamFallback` is false, otherwise rethrows the same error. -/
def Provider.multiCall (p : Provider) (env : RouteEnv) :
    Except String (List Envelope) × List Backend :=
  if p.useBlockstreamFallback && p.blockstreamEsplora.isSome then
    match env.secondaryResult with
    | Except.ok r => (Except.ok r, [Backend.secondary])
    | Except.error _ =>
      match env.primaryResult with
      | Except.ok r => (Except.ok r, [Backend.secondary, Backend.primary])
      | Except.error e =>
        if p.blockstreamEsplora.isSome && !p.useBlockstreamFallback then
          (env.secondaryResult, [Backend.secondary, Backend.primary, Backend.secondary])
        else
          (Except.error e, [Backend.secondary, Backend.primary])
  else
    match env.primaryResult with
    | Except.ok r => (Except.ok r, [Backend.primary])
    | Except.error e =>
      if p.blockstreamEsplora.isSome && !p.useBlockstreamFallback then
        (env.secondaryResult, [Backend.primary, Backend.secondary])
      else
        (Except.error e, [Backend.primary])

/-- An opaque decoded PSBT (`bitcoin.Psbt`) as handed around between the
external library calls. -/
structure Psbt where
  tag : Nat

/-- A decoded final transaction (`bitcoin.Transaction`): the fields
`pushPsbt` reads (`getId()`, `toHex()`, `virtualSize()`, `weight()`). -/
structure Tx where
  txid : String
  hex : String
  vsize : Nat
  weight : Nat

/-- The external `bitcoinjs-lib` operations used by `pushPsbt`:
`Psbt.fromHex`, `Psbt.fromBase64` and `psbt.extractTransaction()`, each of
which can throw. -/
structure PsbtLib where
  fromHex : String → Except String Psbt
  fromBase64 : String → Except String Psbt
  extractTransaction : Psbt → Except String Tx

/-- The first element of the array returned by `testMemPoolAccept`:
`{ allowed, 'reject-reason' }`. -/
structure AcceptResult where
  allowed : Bool
  rejectReason : String

/-- The mempool entry read back after broadcast:
`{ vsize, weight, fees: { base } }`, with the base fee in BTC (modelled as
an exact rational). -/
structure MempoolEntry where
  vsize : Nat
  weight : Nat
  feesBase : ℚ

/-- The Sandshrew-side operations used by the primary broadcast path:
`testMemPoolAccept`, `sendRawTransaction`, `waitForTransaction`,
`getMemPoolEntry`. -/
structure SandshrewEnv where
  testMemPoolAccept : String → Except String AcceptResult
  sendRawTransaction : String → Except String String
  waitForTransaction : String → Except String Unit
  getMemPoolEntry : String → Except String MempoolEntry

/-- The receipt returned by `pushPsbt`. -/
structure BroadcastReceipt where
  txId : String
  rawTx : String
  size : Nat
  weight : Nat
  fee : ℚ
  satsPerVByte : String

/-- Steps of the `pushPsbt` pipeline, recorded in a trace: the two decode
library calls, transaction extraction, the secondary `pushTx`, and the
four primary-path backend interactions. -/
inductive PushEvent
  | decodeHex
  | decodeBase64
  | extract
  | secondaryPush
  | primaryTestAccept
  | primarySend
  | primaryWait
  | primaryEntry
deriving DecidableEq

/-- Whether a pipeline event belongs to the primary two-phase broadcast
path. -/
def PushEvent.isPrimary : PushEvent → Bool
  | PushEvent.primaryTestAccept => true
  | PushEvent.primarySend => true
  | PushEvent.primaryWait => true
  | PushEvent.primaryEntry => true
  | _ => false

/-- JavaScript truthiness of an optional string argument: `undefined` and
the empty string are falsy. -/
def truthy : Option String → Bool
  | none => false
  | some s => s != ""

/-- The `toFixed(2)` formatting applied to the computed fee rate
(line 353), for the nonnegative rationals this code produces: round to the
nearest multiple of 1/100 (ties away from zero, per `Number.prototype.toFixed`),
then print with exactly two digits after the decimal point. -/
def toFixed2 (q : ℚ) : String :=
  let n : ℤ := ⌊q * 100 + 1 / 2⌋
  let ip := n / 100
  let fr := (n % 100).toNat
  toString ip ++ "." ++ (if fr < 10 then "0" ++ toString fr else toString fr)

/-- `Provider.pushPsbt` (lines 272-355), with a trace of pipeline events.
Mirrors the source: argument validation (both/neither supplied throws
before anything else), decode, extraction wrapped in `try`/`catch`, then
either the Blockstream path (when `useBlockstreamFallback` or no
`sandshrew`) or the Sandshrew two-phase path. -/
def Provider.pushPsbt (p : Provider) (lib : PsbtLib) (sand : SandshrewEnv)
    (bnet : EsploraNet) (psbtHex psbtBase64 : Option String) :
    Except String BroadcastReceipt × List PushEvent :=
  if !truthy psbtHex && !truthy psbtBase64 then
    (Except.error "Please supply psbt in either base64 or hex format", [])
  else if truthy psbtHex && truthy psbtBase64 then
    (Except.error "Please select one format of psbt to broadcast", [])
  else
    let decoded : Except String Psbt × PushEvent :=
      if truthy psbtHex then (lib.fromHex (psbtHex.getD ""), PushEvent.decodeHex)
      else (lib.fromBase64 (psbtBase64.getD ""), PushEvent.decodeBase64)
    match decoded.1 with
    | Except.error e => (Except.error e, [decoded.2])
    | Except.ok psbt =>
      match lib.extractTransaction psbt with
      | Except.error _ =>
        (Except.error "Transaction could not be extracted do to invalid Psbt.",
         [decoded.2, PushEvent.extract])
      | Except.ok extractedTx =>
        let txId := extractedTx.txid
        let rawTx := extractedTx.hex
        if p.useBlockstreamFallback || !p.sandshrewPresent then
          match p.blockstreamEsplora with
          | some _ =>
            (match bnet.pushTx rawTx with
             | Except.ok _ =>
               (Except.ok { txId := txId, rawTx := rawTx, size := extractedTx.vsize,
                            weight := extractedTx.weight, fee := 0, satsPerVByte := "0" },
                [decoded.2, PushEvent.extract, PushEvent.secondaryPush])
             | Except.error e =>
               (Except.error e, [decoded.2, PushEvent.extract, PushEvent.secondaryPush]))
          | none =>
            (Except.error "No available service to broadcast transaction",
             [decoded.2, PushEvent.extract])
        else
          match sand.testMemPoolAccept rawTx with
          | Except.error e =>
            (Except.error e, [decoded.2, PushEvent.extract, PushEvent.primaryTestAccept])
          | Except.ok res =>
            if !res.allowed then
              (Except.error res.rejectReason,
               [decoded.2, PushEvent.extract, PushEvent.primaryTestAccept])
            else
              match sand.sendRawTransaction rawTx with
              | Except.error e =>
                (Except.error e,
                 [decoded.2, PushEvent.extract, PushEvent.primaryTestAccept,
                  PushEvent.primarySend])
              | Except.ok _ =>
                match sand.waitForTransaction txId with
                | Except.error e =>
                  (Except.error e,
                   [decoded.2, PushEvent.extract, PushEvent.primaryTestAccept,
                    PushEvent.primarySend, PushEvent.primaryWait])
                | Except.ok _ =>
                  match sand.getMemPoolEntry txId with
                  | Except.error e =>
                    (Except.error e,
                     [decoded.2, PushEvent.extract, PushEvent.primaryTestAccept,
                      PushEvent.primarySend, PushEvent.primaryWait, PushEvent.primaryEntry])
                  | Except.ok entry =>
                    let fee : ℚ := entry.feesBase * 10 ^ 8
                    (Except.ok { txId := txId, rawTx := rawTx, size := entry.vsize,
                                 weight := entry.weight, fee := fee,
                                 satsPerVByte := toFixed2 (fee / ((entry.weight : ℚ) / 4)) },
                     [decoded.2, PushEvent.extract, PushEvent.primaryTestAccept,
                      PushEvent.primarySend, PushEvent.primaryWait, PushEvent.primaryEntry])

/-- Claim C2: in every single invocation of `Provider.multiCall`, the
secondary (Blockstream Esplora) backend is attempted at most once — it is
never attempted both as the first-priority backend and as the fallback in
the same call. -/
theorem route_secondary_at_most_once (p : Provider) (env : RouteEnv) :
    ((p.multiCall env).2.count Backend.secondary) ≤ 1 := by
  obtain ⟨u, nt, fb, sec, sp⟩ := p
  obtain ⟨es, ep⟩ := env
  cases fb <;> cases sec <;> cases es <;> cases ep <;>
    simp [Provider.multiCall, List.count_cons]

/-- Claim C3: a provider constructed for signet has
`useBlockstreamFallback = true` regardless of the explicit
`fallbackToBlockstream` flag, and every routed batch attempts the
secondary backend first (the trace of every `multiCall` invocation starts
with the secondary backend). -/
theorem signet_routes_secondary_first (url projectId version : String) (fb : Bool)
    (env : RouteEnv) :
    (Provider.make url projectId version NetworkType.signet fb).useBlockstreamFallback = true ∧
    ((Provider.make url projectId version NetworkType.signet fb).multiCall env).2.head? =
      some Backend.secondary := by
  obtain ⟨es, ep⟩ := env
  cases fb <;> cases es <;> cases ep <;>
    simp [Provider.make, Provider.multiCall, BlockstreamEsploraClient.create]

/-- Claim C4: when no secondary client exists and the primary backend's
batch execution fails, `Provider.multiCall` propagates the primary
failure to the caller unchanged — the very same error value. -/
theorem route_primary_error_propagates_unchanged (p : Provider) (env : RouteEnv) (e : String)
    (hb : p.blockstreamEsplora = none) (hp : env.primaryResult = Except.error e) :
    (p.multiCall env).1 = Except.error e := by
  unfold Provider.multiCall
  simp [hb, hp]

/-- Witness for C4 at a concrete input: a regtest provider (no secondary)
whose primary batch fails with "boom" surfaces exactly that error. -/
theorem route_primary_error_witness :
    ((Provider.make "https://host" "pid" "v1" NetworkType.regtest false).multiCall
        ⟨Except.error "sec down", Except.error "boom"⟩).1 = Except.error "boom" :=
  route_primary_error_propagates_unchanged
    (Provider.make "https://host" "pid" "v1" NetworkType.regtest false)
    ⟨Except.error "sec down", Except.error "boom"⟩ "boom" rfl rfl

/-- Claim C8: constructing the secondary client for regtest throws, the
`Provider` constructor catches that failure and leaves the secondary
handle absent, and the resulting provider still routes batches through
the primary backend (it remains usable, Primary-only). -/
theorem provider_construction_fail_closed (url projectId version : String) (fb : Bool)
    (env : RouteEnv) (r : List Envelope) (hp : env.primaryResult = Except.ok r) :
    BlockstreamEsploraClient.create NetworkType.regtest =
      Except.error "Unsupported network type: regtest" ∧
    (Provider.make url projectId version NetworkType.regtest fb).blockstreamEsplora = none ∧
    (Provider.make url projectId version NetworkType.regtest fb).multiCall env =
      (Except.ok r, [Backend.primary]) := by
  refine ⟨rfl, ?_, ?_⟩
  · cases fb <;> rfl
  · obtain ⟨es, ep⟩ := env
    cases ep with
    | ok r2 =>
      cases hp
      cases fb <;> simp [Provider.make, Provider.multiCall, BlockstreamEsploraClient.create]
    | error e => cases hp

/-- Witness for C8 at a concrete input: a regtest provider constructed
with the fallback flag set still works, returning the primary backend's
successful batch. -/
theorem provider_construction_fail_closed_witness :
    BlockstreamEsploraClient.create NetworkType.regtest =
      Except.error "Unsupported network type: regtest" ∧
    (Provider.make "https://host" "pid" "v1" NetworkType.regtest true).blockstreamEsplora = none ∧
    (Provider.make "https://host" "pid" "v1" NetworkType.regtest true).multiCall
        ⟨Except.error "sec down", Except.ok [⟨RpcValue.num 5⟩]⟩ =
      (Except.ok [⟨RpcValue.num 5⟩], [Backend.primary]) :=
  provider_construction_fail_closed "https://host" "pid" "v1" true
    ⟨Except.error "sec down", Except.ok [⟨RpcValue.num 5⟩]⟩ [⟨RpcValue.num 5⟩] rfl

/-- Claim C10: after construction, the secondary client is present
exactly for mainnet, testnet and signet (even when the explicit fallback
flag is false), and absent only for regtest. -/
theorem secondary_presence_iff_network (url projectId version : String) (nt : NetworkType)
    (fb : Bool) :
    (Provider.make url projectId version nt fb).blockstreamEsplora.isSome =
      (nt == NetworkType.mainnet || nt == NetworkType.testnet || nt == NetworkType.signet) := by
  cases nt <;> cases fb <;> rfl

/-- Claim C1: for every batch of N calls, `BlockstreamEsploraClient.multiCall`
returns exactly N envelopes, the i-th envelope being the envelope of the
i-th input call (so each call is executed independently and order is
preserved); the function is total, so it never raises; a per-call adapter
failure yields a null envelope for that position only, and an
unrecognized method name also yields a null envelope. -/
theorem multiCall_batch_shape (net : EsploraNet) (calls : List (String × List RpcValue)) :
    (BlockstreamEsploraClient.multiCall net calls).length = calls.length ∧
    (∀ i : Fin calls.length,
      (BlockstreamEsploraClient.multiCall net calls)[i.val]? =
        some (envelopeOf net (calls.get i))) ∧
    (∀ method params e, tryCall net method params = Except.error e →
      envelopeOf net (method, params) = ⟨RpcValue.null⟩) ∧
    (∀ method params,
      method ∉ ["esplora_address::utxo", "btc_getblockcount", "ord_output",
                "esplora_tx", "alkanes_protorunesbyoutpoint"] →
      envelopeOf net (method, params) = ⟨RpcValue.null⟩) := by
  refine ⟨?_, ?_, ?_, ?_⟩
  · simp [BlockstreamEsploraClient.multiCall]
  · intro i
    simp [BlockstreamEsploraClient.multiCall, List.getElem?_map, List.getElem?_eq_getElem i.isLt]
  · intro method params e h
    simp [envelopeOf, h]
  · intro method params h
    simp only [List.mem_cons, List.mem_singleton, not_or] at h
    obtain ⟨h1, h2, h3, h4, h5, _⟩ := h
    simp [envelopeOf, tryCall, h1, h2, h3, h4, h5]

/-- Witness for C1 at a concrete input: a network where every fetch fails
and a batch of three calls (one adapter-backed call that fails, one
unknown method, one synthesized stub) still yields exactly three
envelopes, with null envelopes for the failing call and the unknown
method. -/
theorem multiCall_batch_witness :
    (BlockstreamEsploraClient.multiCall
        ⟨fun _ => Except.error "down", fun _ => Except.error "down", Except.error "down",
         fun _ => Except.error "down"⟩
        [("esplora_tx", [RpcValue.str "ff"]), ("unknown_method", []),
         ("alkanes_protorunesbyoutpoint", [])]).length = 3 ∧
    envelopeOf
        ⟨fun _ => Except.error "down", fun _ => Except.error "down", Except.error "down",
         fun _ => Except.error "down"⟩
        ("esplora_tx", [RpcValue.str "ff"]) = ⟨RpcValue.null⟩ ∧
    envelopeOf
        ⟨fun _ => Except.error "down", fun _ => Except.error "down", Except.error "down",
         fun _ => Except.error "down"⟩
        ("unknown_method", []) = ⟨RpcValue.null⟩ :=
  ⟨(multiCall_batch_shape
      ⟨fun _ => Except.error "down", fun _ => Except.error "down", Except.error "down",
       fun _ => Except.error "down"⟩
      [("esplora_tx", [RpcValue.str "ff"]), ("unknown_method", []),
       ("alkanes_protorunesbyoutpoint", [])]).1,
   (multiCall_batch_shape
      ⟨fun _ => Except.error "down", fun _ => Except.error "down", Except.error "down",
       fun _ => Except.error "down"⟩ []).2.2.1 "esplora_tx" [RpcValue.str "ff"] "down" rfl,
   (multiCall_batch_shape
      ⟨fun _ => Except.error "down", fun _ => Except.error "down", Except.error "down",
       fun _ => Except.error "down"⟩ []).2.2.2 "unknown_method" [] (by decide)⟩

/-- Claim C7: `pushPsbt` fails with the invalid-input validation error,
with no pipeline step executed at all (in particular before any backend
is contacted), exactly when the encoding precondition is violated — both
payloads supplied (truthy) or neither; when exactly one is supplied it
proceeds into the pipeline, its first step being the corresponding
decode. -/
theorem pushPsbt_input_validation (p : Provider) (lib : PsbtLib) (sand : SandshrewEnv)
    (bnet : EsploraNet) (psbtHex psbtBase64 : Option String) :
    (truthy psbtHex = false → truthy psbtBase64 = false →
      Provider.pushPsbt p lib sand bnet psbtHex psbtBase64 =
        (Except.error "Please supply psbt in either base64 or hex format", [])) ∧
    (truthy psbtHex = true → truthy psbtBase64 = true →
      Provider.pushPsbt p lib sand bnet psbtHex psbtBase64 =
        (Except.error "Please select one format of psbt to broadcast", [])) ∧
    (truthy psbtHex = true → truthy psbtBase64 = false →
      (Provider.pushPsbt p lib sand bnet psbtHex psbtBase64).2.head? =
        some PushEvent.decodeHex) ∧
    (truthy psbtHex = false → truthy psbtBase64 = true →
      (Provider.pushPsbt p lib sand bnet psbtHex psbtBase64).2.head? =
        some PushEvent.decodeBase64) := by
  refine ⟨?_, ?_, ?_, ?_⟩
  · intro h1 h2
    simp [Provider.pushPsbt, h1, h2]
  · intro h1 h2
    simp [Provider.pushPsbt, h1, h2]
  · intro h1 h2
    unfold Provider.pushPsbt
    simp only [h1, h2, Bool.not_true, Bool.not_false, Bool.false_and, Bool.and_false,
      Bool.true_and, Bool.and_true, if_false, if_true, ite_true, ite_false,
      Bool.false_eq_true, reduceIte]
    cases lib.fromHex (psbtHex.getD "") with
    | error e => rfl
    | ok psbt =>
      dsimp only
      cases lib.extractTransaction psbt with
      | error e => rfl
      | ok tx =>
        dsimp only
        by_cases hpath : (p.useBlockstreamFallback || !p.sandshrewPresent) = true
        · simp only [hpath, if_true, reduceIte]
          cases p.blockstreamEsplora with
          | none => rfl
          | some c => cases bnet.pushTx tx.hex <;> rfl
        · simp only [hpath, if_false, Bool.not_eq_true] at hpath ⊢
          simp only [hpath, Bool.false_eq_true, reduceIte]
          cases sand.testMemPoolAccept tx.hex with
          | error e => rfl
          | ok res =>
            dsimp only
            by_cases hallow : res.allowed = true
            · simp only [hallow, Bool.not_true, Bool.false_eq_true, reduceIte]
              cases sand.sendRawTransaction tx.hex with
              | error e => rfl
              | ok s =>
                dsimp only
                cases sand.waitForTransaction tx.txid with
                | error e => rfl
                | ok u =>
                  dsimp only
                  cases sand.getMemPoolEntry tx.txid <;> rfl
            · simp only [Bool.not_eq_true] at hallow
              simp only [hallow, Bool.not_false, reduceIte]
              rfl
  · intro h1 h2
    unfold Provider.pushPsbt
    simp only [h1, h2, Bool.not_true, Bool.not_false, Bool.false_and, Bool.and_false,
      Bool.true_and, Bool.and_true, if_false, if_true, ite_true, ite_false,
      Bool.false_eq_true, reduceIte]
    cases lib.fromBase64 (psbtBase64.getD "") with
    | error e => rfl
    | ok psbt =>
      dsimp only
      cases lib.extractTransaction psbt with
      | error e => rfl
      | ok tx =>
        dsimp only
        by_cases hpath : (p.useBlockstreamFallback || !p.sandshrewPresent) = true
        · simp only [hpath, if_true, reduceIte]
          cases p.blockstreamEsplora with
          | none => rfl
          | some c => cases bnet.pushTx tx.hex <;> rfl
        · simp only [hpath, if_false, Bool.not_eq_true] at hpath ⊢
          simp only [hpath, Bool.false_eq_true, reduceIte]
          cases sand.testMemPoolAccept tx.hex with
          | error e => rfl
          | ok res =>
            dsimp only
            by_cases hallow : res.allowed = true
            · simp only [hallow, Bool.not_true, Bool.false_eq_true, reduceIte]
              cases sand.sendRawTransaction tx.hex with
              | error e => rfl
              | ok s =>
                dsimp only
                cases sand.waitForTransaction tx.txid with
                | error e => rfl
                | ok u =>
                  dsimp only
                  cases sand.getMemPoolEntry tx.txid <;> rfl
            · simp only [Bool.not_eq_true] at hallow
              simp only [hallow, Bool.not_false, reduceIte]
              rfl

/-- Witness for C7 at a concrete input: with neither payload supplied,
`pushPsbt` returns the invalid-input error with an empty pipeline trace
(no backend contacted). -/
theorem pushPsbt_input_validation_witness :
    Provider.pushPsbt (Provider.make "https://host" "pid" "v1" NetworkType.mainnet false)
        ⟨fun _ => Except.ok ⟨0⟩, fun _ => Except.ok ⟨0⟩, fun _ => Except.ok ⟨"t", "r", 1, 4⟩⟩
        ⟨fun _ => Except.error "unused", fun _ => Except.error "unused",
         fun _ => Except.error "unused", fun _ => Except.error "unused"⟩
        ⟨fun _ => Except.error "unused", fun _ => Except.error "unused", Except.error "unused",
         fun _ => Except.error "unused"⟩ none none =
      (Except.error "Please supply psbt in either base64 or hex format", []) :=
  (pushPsbt_input_validation (Provider.make "https://host" "pid" "v1" NetworkType.mainnet false)
    ⟨fun _ => Except.ok ⟨0⟩, fun _ => Except.ok ⟨0⟩, fun _ => Except.ok ⟨"t", "r", 1, 4⟩⟩
    ⟨fun _ => Except.error "unused", fun _ => Except.error "unused",
     fun _ => Except.error "unused", fun _ => Except.error "unused"⟩
    ⟨fun _ => Except.error "unused", fun _ => Except.error "unused", Except.error "unused",
     fun _ => Except.error "unused"⟩ none none).1 rfl rfl

/-- Claim C9: when `useBlockstreamFallback` is true but no secondary
client exists (regtest with the flag set), a structurally valid broadcast
request fails with the no-available-service error and no step of the
primary two-phase broadcast path is attempted, even though the primary
client is configured. -/
theorem pushPsbt_no_service_error (p : Provider) (lib : PsbtLib) (sand : SandshrewEnv)
    (bnet : EsploraNet) (psbtHex : Option String) (ps : Psbt) (tx : Tx)
    (h1 : truthy psbtHex = true)
    (hdec : lib.fromHex (psbtHex.getD "") = Except.ok ps)
    (hext : lib.extractTransaction ps = Except.ok tx)
    (hf : p.useBlockstreamFallback = true)
    (hb : p.blockstreamEsplora = none)
    (hs : p.sandshrewPresent = true) :
    (Provider.pushPsbt p lib sand bnet psbtHex none).1 =
      Except.error "No available service to broadcast transaction" ∧
    ∀ ev ∈ (Provider.pushPsbt p lib sand bnet psbtHex none).2, ev.isPrimary = false := by
  have hpush : Provider.pushPsbt p lib sand bnet psbtHex none =
      (Except.error "No available service to broadcast transaction",
       [PushEvent.decodeHex, PushEvent.extract]) := by
    unfold Provider.pushPsbt
    have hnone : truthy none = false := rfl
    simp [h1, hnone, hdec, hext, hf, hb]
  rw [hpush]
  exact ⟨rfl, by decide⟩

/-- Witness for C9 at a concrete input: a regtest provider constructed
with the fallback flag set rejects a decodable broadcast with the
no-available-service error after only the decode and extract steps. -/
theorem pushPsbt_no_service_witness :
    (Provider.pushPsbt (Provider.make "https://host" "pid" "v1" NetworkType.regtest true)
        ⟨fun _ => Except.ok ⟨0⟩, fun _ => Except.ok ⟨0⟩, fun _ => Except.ok ⟨"t", "r", 1, 4⟩⟩
        ⟨fun _ => Except.ok ⟨true, ""⟩, fun _ => Except.ok "sent", fun _ => Except.ok (),
         fun _ => Except.ok ⟨1, 4, 0⟩⟩
        ⟨fun _ => Except.error "unused", fun _ => Except.error "unused", Except.error "unused",
         fun _ => Except.ok "pushed"⟩ (some "aa") none).1 =
      Except.error "No available service to broadcast transaction" ∧
    (Provider.pushPsbt (Provider.make "https://host" "pid" "v1" NetworkType.regtest true)
        ⟨fun _ => Except.ok ⟨0⟩, fun _ => Except.ok ⟨0⟩, fun _ => Except.ok ⟨"t", "r", 1, 4⟩⟩
        ⟨fun _ => Except.ok ⟨true, ""⟩, fun _ => Except.ok "sent", fun _ => Except.ok (),
         fun _ => Except.ok ⟨1, 4, 0⟩⟩
        ⟨fun _ => Except.error "unused", fun _ => Except.error "unused", Except.error "unused",
         fun _ => Except.ok "pushed"⟩ (some "aa") none).2 =
      [PushEvent.decodeHex, PushEvent.extract] :=
  ⟨(pushPsbt_no_service_error (Provider.make "https://host" "pid" "v1" NetworkType.regtest true)
      ⟨fun _ => Except.ok ⟨0⟩, fun _ => Except.ok ⟨0⟩, fun _ => Except.ok ⟨"t", "r", 1, 4⟩⟩
      ⟨fun _ => Except.ok ⟨true, ""⟩, fun _ => Except.ok "sent", fun _ => Except.ok (),
       fun _ => Except.ok ⟨1, 4, 0⟩⟩
      ⟨fun _ => Except.error "unused", fun _ => Except.error "unused", Except.error "unused",
       fun _ => Except.ok "pushed"⟩ (some "aa") ⟨0⟩ ⟨"t", "r", 1, 4⟩
      rfl rfl rfl rfl rfl rfl).1,
   by decide⟩

/-- Counterexample to claim C5 as stated: a concrete successful broadcast
through the secondary (Blockstream) path returns a receipt whose fee-rate
string is "0", not the claimed "0.00". -/
theorem secondary_feerate_counterexample :
    ((Provider.pushPsbt (Provider.make "https://host" "pid" "v1" NetworkType.signet false)
        ⟨fun _ => Except.ok ⟨0⟩, fun _ => Except.ok ⟨0⟩, fun _ => Except.ok ⟨"t", "r", 10, 40⟩⟩
        ⟨fun _ => Except.error "unused", fun _ => Except.error "unused",
         fun _ => Except.error "unused", fun _ => Except.error "unused"⟩
        ⟨fun _ => Except.error "unused", fun _ => Except.error "unused", Except.error "unused",
         fun _ => Except.ok "broadcast ok"⟩
        (some "aa") none).1.toOption.map BroadcastReceipt.satsPerVByte = some "0") ∧
    some "0" ≠ some "0.00" := by
  exact ⟨rfl, by decide⟩

/-- Claim C5 (amended): every successful broadcast taken through the
secondary-explorer path (selected when `useBlockstreamFallback` is true
or no primary client is present) yields a receipt with fee 0 and fee-rate
string "0" — not "0.00" as the claim stated. -/
theorem secondary_broadcast_receipt_fields (p : Provider) (lib : PsbtLib) (sand : SandshrewEnv)
    (bnet : EsploraNet) (psbtHex psbtBase64 : Option String) (r : BroadcastReceipt)
    (hpath : p.useBlockstreamFallback = true ∨ p.sandshrewPresent = false)
    (hok : (Provider.pushPsbt p lib sand bnet psbtHex psbtBase64).1 = Except.ok r) :
    r.fee = 0 ∧ r.satsPerVByte = "0" := by
  have hcond : (p.useBlockstreamFallback || !p.sandshrewPresent) = true := by
    rcases hpath with h | h <;> simp [h]
  unfold Provider.pushPsbt at hok
  by_cases h1 : truthy psbtHex = true <;> by_cases h2 : truthy psbtBase64 = true
  · simp [h1, h2] at hok
  · rw [Bool.not_eq_true] at h2
    simp only [h1, h2, Bool.not_true, Bool.not_false, Bool.false_and, Bool.and_false,
      Bool.true_and, Bool.and_true, Bool.false_eq_true, reduceIte] at hok
    cases hfx : lib.fromHex (psbtHex.getD "") with
    | error e => rw [hfx] at hok; simp at hok
    | ok psbt =>
      rw [hfx] at hok
      dsimp only at hok
      cases hext : lib.extractTransaction psbt with
      | error e => rw [hext] at hok; simp at hok
      | ok tx =>
        rw [hext] at hok
        dsimp only at hok
        simp only [hcond, reduceIte] at hok
        cases hbe : p.blockstreamEsplora with
        | none => rw [hbe] at hok; simp at hok
        | some c =>
          rw [hbe] at hok
          dsimp only at hok
          cases hpt : bnet.pushTx tx.hex with
          | error e => rw [hpt] at hok; simp at hok
          | ok s =>
            rw [hpt] at hok
            dsimp only at hok
            simp only [Except.ok.injEq] at hok
            subst hok
            exact ⟨rfl, rfl⟩
  · rw [Bool.not_eq_true] at h1
    simp only [h1, h2, Bool.not_true, Bool.not_false, Bool.false_and, Bool.and_false,
      Bool.true_and, Bool.and_true, Bool.false_eq_true, reduceIte] at hok
    cases hfx : lib.fromBase64 (psbtBase64.getD "") with
    | error e => rw [hfx] at hok; simp at hok
    | ok psbt =>
      rw [hfx] at hok
      dsimp only at hok
      cases hext : lib.extractTransaction psbt with
      | error e => rw [hext] at hok; simp at hok
      | ok tx =>
        rw [hext] at hok
        dsimp only at hok
        simp only [hcond, reduceIte] at hok
        cases hbe : p.blockstreamEsplora with
        | none => rw [hbe] at hok; simp at hok
        | some c =>
          rw [hbe] at hok
          dsimp only at hok
          cases hpt : bnet.pushTx tx.hex with
          | error e => rw [hpt] at hok; simp at hok
          | ok s =>
            rw [hpt] at hok
            dsimp only at hok
            simp only [Except.ok.injEq] at hok
            subst hok
            exact ⟨rfl, rfl⟩
  · rw [Bool.not_eq_true] at h1
    rw [Bool.not_eq_true] at h2
    simp [h1, h2] at hok

/-- Witness for the amended C5 at a concrete input: a successful
secondary-path broadcast whose receipt has fee 0 and fee-rate string
"0". -/
theorem secondary_broadcast_receipt_witness :
    ({ txId := "t", rawTx := "r", size := 10, weight := 40, fee := 0,
       satsPerVByte := "0" } : BroadcastReceipt).fee = 0 ∧
    ({ txId := "t", rawTx := "r", size := 10, weight := 40, fee := 0,
       satsPerVByte := "0" } : BroadcastReceipt).satsPerVByte = "0" :=
  secondary_broadcast_receipt_fields
    (Provider.make "https://host" "pid" "v1" NetworkType.signet false)
    ⟨fun _ => Except.ok ⟨0⟩, fun _ => Except.ok ⟨0⟩, fun _ => Except.ok ⟨"t", "r", 10, 40⟩⟩
    ⟨fun _ => Except.error "unused", fun _ => Except.error "unused",
     fun _ => Except.error "unused", fun _ => Except.error "unused"⟩
    ⟨fun _ => Except.error "unused", fun _ => Except.error "unused", Except.error "unused",
     fun _ => Except.ok "broadcast ok"⟩
    (some "aa") none
    { txId := "t", rawTx := "r", size := 10, weight := 40, fee := 0, satsPerVByte := "0" }
    (Or.inl rfl) rfl

/-- Claim C6: a successful broadcast through the primary two-phase path
returns a receipt whose fee is the mempool entry's base fee times 10^8
and whose fee-rate string is that fee divided by (weight/4), formatted to
two decimal places. -/
theorem primary_broadcast_feerate (p : Provider) (lib : PsbtLib) (sand : SandshrewEnv)
    (bnet : EsploraNet) (psbtHex : Option String) (ps : Psbt) (tx : Tx) (res : AcceptResult)
    (sendOk : String) (entry : MempoolEntry)
    (h1 : truthy psbtHex = true)
    (hdec : lib.fromHex (psbtHex.getD "") = Except.ok ps)
    (hext : lib.extractTransaction ps = Except.ok tx)
    (hf : p.useBlockstreamFallback = false)
    (hs : p.sandshrewPresent = true)
    (hacc : sand.testMemPoolAccept tx.hex = Except.ok res)
    (hallow : res.allowed = true)
    (hsend : sand.sendRawTransaction tx.hex = Except.ok sendOk)
    (hwait : sand.waitForTransaction tx.txid = Except.ok ())
    (hentry : sand.getMemPoolEntry tx.txid = Except.ok entry) :
    (Provider.pushPsbt p lib sand bnet psbtHex none).1 =
      Except.ok { txId := tx.txid, rawTx := tx.hex, size := entry.vsize, weight := entry.weight,
                  fee := entry.feesBase * 10 ^ 8,
                  satsPerVByte :=
                    toFixed2 ((entry.feesBase * 10 ^ 8) / ((entry.weight : ℚ) / 4)) } := by
  unfold Provider.pushPsbt
  have hnone : truthy none = false := rfl
  simp [h1, hnone, hdec, hext, hf, hs, hacc, hallow, hsend, hwait, hentry]

/-- Witness for C6 at the claim's worked example: base fee 0.00001 BTC
(1000 satoshis) and weight 400 give the fee-rate string "10.00". -/
theorem primary_broadcast_feerate_witness :
    (Provider.pushPsbt (Provider.make "https://host" "pid" "v1" NetworkType.mainnet false)
        ⟨fun _ => Except.ok ⟨0⟩, fun _ => Except.ok ⟨0⟩, fun _ => Except.ok ⟨"t", "r", 100, 400⟩⟩
        ⟨fun _ => Except.ok ⟨true, ""⟩, fun _ => Except.ok "sent", fun _ => Except.ok (),
         fun _ => Except.ok ⟨250, 400, 1 / 100000⟩⟩
        ⟨fun _ => Except.error "unused", fun _ => Except.error "unused", Except.error "unused",
         fun _ => Except.error "unused"⟩ (some "aa") none).1 =
      Except.ok { txId := "t", rawTx := "r", size := 250, weight := 400,
                  fee := (1 / 100000 : ℚ) * 10 ^ 8,
                  satsPerVByte :=
                    toFixed2 (((1 / 100000 : ℚ) * 10 ^ 8) / ((((400 : ℕ) : ℚ)) / 4)) } ∧
    toFixed2 (((1 / 100000 : ℚ) * 10 ^ 8) / ((((400 : ℕ) : ℚ)) / 4)) = "10.00" := by
  constructor
  · exact primary_broadcast_feerate
      (Provider.make "https://host" "pid" "v1" NetworkType.mainnet false)
      ⟨fun _ => Except.ok ⟨0⟩, fun _ => Except.ok ⟨0⟩, fun _ => Except.ok ⟨"t", "r", 100, 400⟩⟩
      ⟨fun _ => Except.ok ⟨true, ""⟩, fun _ => Except.ok "sent", fun _ => Except.ok (),
       fun _ => Except.ok ⟨250, 400, 1 / 100000⟩⟩
      ⟨fun _ => Except.error "unused", fun _ => Except.error "unused", Except.error "unused",
       fun _ => Except.error "unused"⟩ (some "aa") ⟨0⟩ ⟨"t", "r", 100, 400⟩ ⟨true, ""⟩
      "sent" ⟨250, 400, 1 / 100000⟩ rfl rfl rfl rfl rfl rfl rfl rfl rfl rfl
  · have hq : (((1 / 100000 : ℚ) * 10 ^ 8) / ((((400 : ℕ) : ℚ)) / 4)) * 100 + 1 / 2 =
        2001 / 2 := by norm_num
    unfold toFixed2
    rw [hq]
    norm_num
    decide
